import Mathlib

/-!
Shallow embedding of the Signal-protocol FFI callback bridge
(`src/native/signal_ffi/wrapper/wrapper.c` and
`src/native/signal_ffi/wrapper_platform/callback_bridge.c`).

Pointers and function-pointer values are modelled as natural numbers, with
`0` playing the role of `NULL`.  The process-wide mutable globals of the two
translation units are collected into one explicit state record,
`BridgeState`, threaded through the registration functions and read by the
wrapper functions.

Calling through a function pointer is modelled by an abstract environment
`HandlerEnv` that gives, for every nonzero address, the integer status the
callable at that address returns for given arguments.  The `void*` arguments
a store handler receives are modelled by `CArg`: a pointer forwarded as-is
(`CArg.ptr`), the address of a stack temporary holding a by-value
single-field wrapper struct (`CArg.addrOf`, carrying the struct's `raw`
pointer field, i.e. the content a handler observes when it dereferences),
and the extra untyped scalar of the trust check (`CArg.scalar`).
-/

/-- Opaque wrapper struct `SignalConstPointerProtocolAddress` from
`wrapper.h`: a single `raw` pointer field. -/
structure SignalConstPointerProtocolAddress where
  raw : Nat
deriving DecidableEq, Repr

/-- Opaque wrapper struct `SignalMutPointerSessionRecord` from `wrapper.h`. -/
structure SignalMutPointerSessionRecord where
  raw : Nat
deriving DecidableEq, Repr

/-- Opaque wrapper struct `SignalConstPointerSessionRecord` from `wrapper.h`. -/
structure SignalConstPointerSessionRecord where
  raw : Nat
deriving DecidableEq, Repr

/-- Opaque wrapper struct `SignalMutPointerPrivateKey` from `wrapper.h`. -/
structure SignalMutPointerPrivateKey where
  raw : Nat
deriving DecidableEq, Repr

/-- Opaque wrapper struct `SignalConstPointerPublicKey` from `wrapper.h`. -/
structure SignalConstPointerPublicKey where
  raw : Nat
deriving DecidableEq, Repr

/-- Opaque wrapper struct `SignalMutPointerPublicKey` from `wrapper.h`. -/
structure SignalMutPointerPublicKey where
  raw : Nat
deriving DecidableEq, Repr

/-- One `void*` argument as received by a registered store handler:
either a pointer value forwarded unchanged, or the address of a stack
temporary holding a by-value wrapper struct (identified by the struct's
`raw` pointer content), or the extra untyped scalar of
`spots_is_trusted_identity_wrapper`. -/
inductive CArg where
  | ptr (a : Nat)
  | addrOf (raw : Nat)
  | scalar (n : Nat)
deriving DecidableEq, Repr

/-- Semantics of invoking the callable stored at a (nonzero) function-pointer
address: `callStore` for the simplified store-handler signatures
`int (*)(void*, void*, void*[, unsigned int])`, `callDispatch` for the
`int32_t (*)(uint64_t)` dispatch-callback signature. -/
structure HandlerEnv where
  callStore : Nat → List CArg → Int
  callDispatch : Nat → Nat → Int

/-- The process-wide globals of `wrapper.c` (seven store-callback slots)
and `callback_bridge.c` (`g_dart_callback` and the auxiliary
`g_dart_callback_ptr`).  A value of `0` is `NULL` (no handler). -/
structure BridgeState where
  g_load_session_callback : Nat
  g_store_session_callback : Nat
  g_get_identity_key_pair_callback : Nat
  g_get_local_registration_id_callback : Nat
  g_save_identity_key_callback : Nat
  g_get_identity_key_callback : Nat
  g_is_trusted_identity_callback : Nat
  g_dart_callback : Nat
  g_dart_callback_ptr : Nat
deriving DecidableEq, Repr

/-- All globals start as `NULL` (static initialization in C). -/
def initState : BridgeState :=
  ⟨0, 0, 0, 0, 0, 0, 0, 0, 0⟩

/-! Registration functions of `wrapper.c`: each stores the given address
into its own global slot (a plain assignment, no failure mode). -/

def spots_register_load_session_callback (callback : Nat) (st : BridgeState) : BridgeState :=
  { st with g_load_session_callback := callback }

def spots_register_store_session_callback (callback : Nat) (st : BridgeState) : BridgeState :=
  { st with g_store_session_callback := callback }

def spots_register_get_identity_key_pair_callback (callback : Nat) (st : BridgeState) : BridgeState :=
  { st with g_get_identity_key_pair_callback := callback }

def spots_register_get_local_registration_id_callback (callback : Nat) (st : BridgeState) : BridgeState :=
  { st with g_get_local_registration_id_callback := callback }

def spots_register_save_identity_key_callback (callback : Nat) (st : BridgeState) : BridgeState :=
  { st with g_save_identity_key_callback := callback }

def spots_register_get_identity_key_callback (callback : Nat) (st : BridgeState) : BridgeState :=
  { st with g_get_identity_key_callback := callback }

def spots_register_is_trusted_identity_callback (callback : Nat) (st : BridgeState) : BridgeState :=
  { st with g_is_trusted_identity_callback := callback }

/-! Registration functions of `callback_bridge.c`: three strategies, all
writing the same `g_dart_callback` slot. -/

/-- Option 1 (`signal_register_dispatch_callback`): the host supplies a value
already typed as the dispatch function-pointer type. -/
def signal_register_dispatch_callback (callback : Nat) (st : BridgeState) : BridgeState :=
  { st with g_dart_callback := callback }

/-- Option 2 (`signal_register_dispatch_callback_ptr`): the host supplies a
bare `void*` address; the bridge records it in `g_dart_callback_ptr` and
casts it into `g_dart_callback`. -/
def signal_register_dispatch_callback_ptr (callback_ptr : Nat) (st : BridgeState) : BridgeState :=
  { st with g_dart_callback_ptr := callback_ptr, g_dart_callback := callback_ptr }

/-- Option 3 (`signal_register_dispatch_callback_by_name`): resolve the
symbol via the dynamic symbol table (`dlsym`, modelled as a function from
names to addresses with `0` for failed resolution); update both slots only
when resolution returned non-`NULL`, otherwise leave the state unchanged. -/
def signal_register_dispatch_callback_by_name (dlsym : String → Nat)
    (function_name : String) (st : BridgeState) : BridgeState :=
  let func_ptr := dlsym function_name
  if func_ptr ≠ 0 then
    { st with g_dart_callback := func_ptr, g_dart_callback_ptr := func_ptr }
  else
    st

/-! Wrapper functions of `wrapper.c`: check the slot for `NULL`, return the
sentinel `1` when absent, otherwise call the registered handler with the
parameters converted to `void*` (by-value wrapper structs passed as the
address of the local copy) and forward its return value. -/

def spots_load_session_wrapper (env : HandlerEnv) (st : BridgeState)
    (store_ctx : Nat) (recordp : Nat) (address : SignalConstPointerProtocolAddress) : Int :=
  if st.g_load_session_callback = 0 then
    1
  else
    env.callStore st.g_load_session_callback
      [CArg.ptr store_ctx, CArg.ptr recordp, CArg.addrOf address.raw]

def spots_store_session_wrapper (env : HandlerEnv) (st : BridgeState)
    (store_ctx : Nat) (address : SignalConstPointerProtocolAddress)
    (record : SignalConstPointerSessionRecord) : Int :=
  if st.g_store_session_callback = 0 then
    1
  else
    env.callStore st.g_store_session_callback
      [CArg.ptr store_ctx, CArg.addrOf address.raw, CArg.addrOf record.raw]

def spots_get_identity_key_pair_wrapper (env : HandlerEnv) (st : BridgeState)
    (store_ctx : Nat) (keyp : Nat) : Int :=
  if st.g_get_identity_key_pair_callback = 0 then
    1
  else
    env.callStore st.g_get_identity_key_pair_callback
      [CArg.ptr store_ctx, CArg.ptr keyp]

def spots_get_local_registration_id_wrapper (env : HandlerEnv) (st : BridgeState)
    (store_ctx : Nat) (idp : Nat) : Int :=
  if st.g_get_local_registration_id_callback = 0 then
    1
  else
    env.callStore st.g_get_local_registration_id_callback
      [CArg.ptr store_ctx, CArg.ptr idp]

def spots_save_identity_key_wrapper (env : HandlerEnv) (st : BridgeState)
    (store_ctx : Nat) (address : SignalConstPointerProtocolAddress)
    (public_key : SignalConstPointerPublicKey) : Int :=
  if st.g_save_identity_key_callback = 0 then
    1
  else
    env.callStore st.g_save_identity_key_callback
      [CArg.ptr store_ctx, CArg.addrOf address.raw, CArg.addrOf public_key.raw]

def spots_get_identity_key_wrapper (env : HandlerEnv) (st : BridgeState)
    (store_ctx : Nat) (public_keyp : Nat)
    (address : SignalConstPointerProtocolAddress) : Int :=
  if st.g_get_identity_key_callback = 0 then
    1
  else
    env.callStore st.g_get_identity_key_callback
      [CArg.ptr store_ctx, CArg.ptr public_keyp, CArg.addrOf address.raw]

def spots_is_trusted_identity_wrapper (env : HandlerEnv) (st : BridgeState)
    (store_ctx : Nat) (address : SignalConstPointerProtocolAddress)
    (public_key : SignalConstPointerPublicKey) (direction : Nat) : Int :=
  if st.g_is_trusted_identity_callback = 0 then
    1
  else
    env.callStore st.g_is_trusted_identity_callback
      [CArg.ptr store_ctx, CArg.addrOf address.raw, CArg.addrOf public_key.raw,
        CArg.scalar direction]

/-- The dispatch trampoline `signal_dispatch_wrapper` of `callback_bridge.c`:
return the sentinel `1` when `g_dart_callback` is `NULL`, otherwise call the
registered dispatch callback with the args address and forward its return. -/
def signal_dispatch_wrapper (env : HandlerEnv) (st : BridgeState)
    (args_address : Nat) : Int :=
  if st.g_dart_callback = 0 then
    1
  else
    env.callDispatch st.g_dart_callback args_address

/-- The eight operations of the bridge: the seven store operations of
`wrapper.c` plus the generic `Dispatch` operation of `callback_bridge.c`. -/
inductive Op where
  | loadSession
  | storeSession
  | getIdentityKeyPair
  | getLocalRegistrationId
  | saveIdentityKey
  | getIdentityKey
  | isTrustedIdentity
  | dispatch
deriving DecidableEq, Repr

/-- The engine-side arguments of each operation's wrapper (everything after
the `HandlerEnv` and the state). -/
def OpArgs : Op → Type
  | .loadSession => Nat × Nat × SignalConstPointerProtocolAddress
  | .storeSession => Nat × SignalConstPointerProtocolAddress × SignalConstPointerSessionRecord
  | .getIdentityKeyPair => Nat × Nat
  | .getLocalRegistrationId => Nat × Nat
  | .saveIdentityKey => Nat × SignalConstPointerProtocolAddress × SignalConstPointerPublicKey
  | .getIdentityKey => Nat × Nat × SignalConstPointerProtocolAddress
  | .isTrustedIdentity =>
      Nat × SignalConstPointerProtocolAddress × SignalConstPointerPublicKey × Nat
  | .dispatch => Nat

/-- The registry slot an operation's wrapper consults. -/
def slotOf (op : Op) (st : BridgeState) : Nat :=
  match op with
  | .loadSession => st.g_load_session_callback
  | .storeSession => st.g_store_session_callback
  | .getIdentityKeyPair => st.g_get_identity_key_pair_callback
  | .getLocalRegistrationId => st.g_get_local_registration_id_callback
  | .saveIdentityKey => st.g_save_identity_key_callback
  | .getIdentityKey => st.g_get_identity_key_callback
  | .isTrustedIdentity => st.g_is_trusted_identity_callback
  | .dispatch => st.g_dart_callback

/-- The registration entry point of each operation (for `Dispatch`, the
address strategy `signal_register_dispatch_callback_ptr`, the one that takes
an opaque `void*` like the seven store registrations do). -/
def registerOp (op : Op) (callback : Nat) (st : BridgeState) : BridgeState :=
  match op with
  | .loadSession => spots_register_load_session_callback callback st
  | .storeSession => spots_register_store_session_callback callback st
  | .getIdentityKeyPair => spots_register_get_identity_key_pair_callback callback st
  | .getLocalRegistrationId => spots_register_get_local_registration_id_callback callback st
  | .saveIdentityKey => spots_register_save_identity_key_callback callback st
  | .getIdentityKey => spots_register_get_identity_key_callback callback st
  | .isTrustedIdentity => spots_register_is_trusted_identity_callback callback st
  | .dispatch => signal_register_dispatch_callback_ptr callback st

/-- Invoking an operation's wrapper on given arguments. -/
def invokeOp (op : Op) (env : HandlerEnv) (st : BridgeState) : OpArgs op → Int :=
  match op with
  | .loadSession => fun a => spots_load_session_wrapper env st a.1 a.2.1 a.2.2
  | .storeSession => fun a => spots_store_session_wrapper env st a.1 a.2.1 a.2.2
  | .getIdentityKeyPair => fun a => spots_get_identity_key_pair_wrapper env st a.1 a.2
  | .getLocalRegistrationId => fun a => spots_get_local_registration_id_wrapper env st a.1 a.2
  | .saveIdentityKey => fun a => spots_save_identity_key_wrapper env st a.1 a.2.1 a.2.2
  | .getIdentityKey => fun a => spots_get_identity_key_wrapper env st a.1 a.2.1 a.2.2
  | .isTrustedIdentity =>
      fun a => spots_is_trusted_identity_wrapper env st a.1 a.2.1 a.2.2.1 a.2.2.2
  | .dispatch => fun a => signal_dispatch_wrapper env st a

/-- Calling the handler at address `h` directly with the repacked arguments
an operation's wrapper would hand it (the else branch of each wrapper,
abstracted over the handler address). -/
def callHandler (op : Op) (env : HandlerEnv) (h : Nat) : OpArgs op → Int :=
  match op with
  | .loadSession => fun a =>
      env.callStore h [CArg.ptr a.1, CArg.ptr a.2.1, CArg.addrOf a.2.2.raw]
  | .storeSession => fun a =>
      env.callStore h [CArg.ptr a.1, CArg.addrOf a.2.1.raw, CArg.addrOf a.2.2.raw]
  | .getIdentityKeyPair => fun a =>
      env.callStore h [CArg.ptr a.1, CArg.ptr a.2]
  | .getLocalRegistrationId => fun a =>
      env.callStore h [CArg.ptr a.1, CArg.ptr a.2]
  | .saveIdentityKey => fun a =>
      env.callStore h [CArg.ptr a.1, CArg.addrOf a.2.1.raw, CArg.addrOf a.2.2.raw]
  | .getIdentityKey => fun a =>
      env.callStore h [CArg.ptr a.1, CArg.ptr a.2.1, CArg.addrOf a.2.2.raw]
  | .isTrustedIdentity => fun a =>
      env.callStore h
        [CArg.ptr a.1, CArg.addrOf a.2.1.raw, CArg.addrOf a.2.2.1.raw, CArg.scalar a.2.2.2]
  | .dispatch => fun a => env.callDispatch h a

/-- A concrete environment whose handlers all return `0`, used to
instantiate universally quantified statements at a specific input. -/
def envZero : HandlerEnv :=
  ⟨fun _ _ => 0, fun _ _ => 0⟩

/-! Helper lemmas shared by the claim theorems. -/

theorem invokeOp_of_slot_zero (op : Op) (env : HandlerEnv) (st : BridgeState)
    (args : OpArgs op) (h0 : slotOf op st = 0) : invokeOp op env st args = 1 := by
  cases op <;>
    simp only [invokeOp, spots_load_session_wrapper, spots_store_session_wrapper,
      spots_get_identity_key_pair_wrapper, spots_get_local_registration_id_wrapper,
      spots_save_identity_key_wrapper, spots_get_identity_key_wrapper,
      spots_is_trusted_identity_wrapper, signal_dispatch_wrapper] <;>
    rw [if_pos (by exact h0)]

theorem invokeOp_of_slot_ne_zero (op : Op) (env : HandlerEnv) (st : BridgeState)
    (args : OpArgs op) (hne : slotOf op st ≠ 0) :
    invokeOp op env st args = callHandler op env (slotOf op st) args := by
  cases op <;>
    simp only [invokeOp, callHandler, spots_load_session_wrapper,
      spots_store_session_wrapper, spots_get_identity_key_pair_wrapper,
      spots_get_local_registration_id_wrapper, spots_save_identity_key_wrapper,
      spots_get_identity_key_wrapper, spots_is_trusted_identity_wrapper,
      signal_dispatch_wrapper, slotOf] <;>
    rw [if_neg (by exact hne)]

theorem slotOf_registerOp_same (op : Op) (callback : Nat) (st : BridgeState) :
    slotOf op (registerOp op callback st) = callback := by
  cases op <;> rfl

theorem slotOf_registerOp_ne (op op' : Op) (callback : Nat) (st : BridgeState)
    (hne : op ≠ op') : slotOf op' (registerOp op callback st) = slotOf op' st := by
  cases op <;> cases op' <;> first
    | exact absurd rfl hne
    | rfl

theorem invokeOp_congr_slot (op : Op) (env : HandlerEnv) (st st' : BridgeState)
    (args : OpArgs op) (hs : slotOf op st = slotOf op st') :
    invokeOp op env st args = invokeOp op env st' args := by
  cases op <;>
    simp only [slotOf] at hs <;>
    simp only [invokeOp, spots_load_session_wrapper, spots_store_session_wrapper,
      spots_get_identity_key_pair_wrapper, spots_get_local_registration_id_wrapper,
      spots_save_identity_key_wrapper, spots_get_identity_key_wrapper,
      spots_is_trusted_identity_wrapper, signal_dispatch_wrapper] <;>
    rw [hs]

/-- A concrete environment whose handlers all return `1`. -/
def envOne : HandlerEnv :=
  ⟨fun _ _ => 1, fun _ _ => 1⟩

/-- A concrete environment whose handlers all return `7`. -/
def envSeven : HandlerEnv :=
  ⟨fun _ _ => 7, fun _ _ => 7⟩

/-- A concrete recording environment: the callable at address `9` returns
`0` exactly when it observes the context `5`, the record pointer `6` and a
temporary whose content is the protocol-address pointer `7`; every other
call returns `99`. -/
def envRecord : HandlerEnv :=
  ⟨fun h l =>
    if h = 9 then
      if l = [CArg.ptr 5, CArg.ptr 6, CArg.addrOf 7] then 0 else 99
    else 99,
   fun _ _ => 99⟩

/-- A concrete dynamic symbol table: resolves exactly the name
`my_dispatch` (to address `11`), fails on everything else. -/
def dlsymEx : String → Nat :=
  fun n => if n = "my_dispatch" then 11 else 0

/-- C1: invoking any of the seven store adapter wrappers or the Dispatch
trampoline while its operation's slot is `NULL` returns the reserved
sentinel `1`, and the result does not depend on the handler-call
environment (no handler is invoked, no pointer is dereferenced). -/
theorem claim_C1_not_registered_sentinel (op : Op) (env env' : HandlerEnv)
    (st : BridgeState) (args : OpArgs op) (h0 : slotOf op st = 0) :
    invokeOp op env st args = 1 ∧ invokeOp op env st args = invokeOp op env' st args := by
  refine ⟨invokeOp_of_slot_zero op env st args h0, ?_⟩
  rw [invokeOp_of_slot_zero op env st args h0, invokeOp_of_slot_zero op env' st args h0]

theorem claim_C1_witness :
    invokeOp Op.loadSession envZero initState (5, 6, ⟨7⟩) = 1 ∧
      invokeOp Op.loadSession envZero initState (5, 6, ⟨7⟩) =
        invokeOp Op.loadSession envSeven initState (5, 6, ⟨7⟩) :=
  claim_C1_not_registered_sentinel Op.loadSession envZero envSeven initState (5, 6, ⟨7⟩) rfl

/-- C2: registering `h1` then `h2` for the same operation silently replaces
the earlier registration (the resulting state is the one obtained by
registering `h2` alone), and every subsequent invocation calls `h2` and
only `h2`, forwarding its result. -/
theorem claim_C2_last_write_wins (op : Op) (h1 h2 : Nat) (env : HandlerEnv)
    (st : BridgeState) (args : OpArgs op) :
    registerOp op h2 (registerOp op h1 st) = registerOp op h2 st ∧
      (h2 ≠ 0 →
        invokeOp op env (registerOp op h2 (registerOp op h1 st)) args =
          callHandler op env h2 args) := by
  constructor
  · cases op <;> rfl
  · intro hne
    have hs : slotOf op (registerOp op h2 (registerOp op h1 st)) = h2 :=
      slotOf_registerOp_same op h2 (registerOp op h1 st)
    rw [invokeOp_of_slot_ne_zero op env _ args (by rw [hs]; exact hne), hs]

theorem claim_C2_witness :
    registerOp Op.dispatch 4 (registerOp Op.dispatch 3 initState) =
        registerOp Op.dispatch 4 initState ∧
      invokeOp Op.dispatch envSeven (registerOp Op.dispatch 4 (registerOp Op.dispatch 3 initState))
          (show OpArgs Op.dispatch from (9 : Nat)) =
        callHandler Op.dispatch envSeven 4 (show OpArgs Op.dispatch from (9 : Nat)) :=
  ⟨(claim_C2_last_write_wins Op.dispatch 3 4 envSeven initState (show OpArgs Op.dispatch from (9 : Nat))).1,
   (claim_C2_last_write_wins Op.dispatch 3 4 envSeven initState
      (show OpArgs Op.dispatch from (9 : Nat))).2 (by decide)⟩

/-- C3: while a handler is registered, each wrapper's return value is
exactly the integer the registered handler returns for that call: the
status is forwarded verbatim and uninterpreted, with no retries. -/
theorem claim_C3_status_forwarded_verbatim (op : Op) (env : HandlerEnv)
    (st : BridgeState) (args : OpArgs op) (hne : slotOf op st ≠ 0) :
    invokeOp op env st args = callHandler op env (slotOf op st) args :=
  invokeOp_of_slot_ne_zero op env st args hne

theorem claim_C3_witness :
    invokeOp Op.storeSession envSeven (registerOp Op.storeSession 3 initState) (1, ⟨2⟩, ⟨4⟩) =
      callHandler Op.storeSession envSeven 3 (1, ⟨2⟩, ⟨4⟩) :=
  claim_C3_status_forwarded_verbatim Op.storeSession envSeven
    (registerOp Op.storeSession 3 initState) (1, ⟨2⟩, ⟨4⟩) (by decide)

/-- C4: every store wrapper forwards the engine's arguments to the
registered handler unchanged: the context pointer is passed through as the
first argument, pointer parameters are forwarded directly, by-value
wrapper structs are repacked into address-of-struct form, and the extra
direction scalar of `spots_is_trusted_identity_wrapper` is passed through
as-is, for each of the seven store wrappers. -/
theorem claim_C4_argument_forwarding (env : HandlerEnv) (st : BridgeState)
    (store_ctx recordp keyp idp public_keyp : Nat)
    (address : SignalConstPointerProtocolAddress)
    (record : SignalConstPointerSessionRecord)
    (public_key : SignalConstPointerPublicKey) (direction : Nat) :
    (st.g_load_session_callback ≠ 0 →
      spots_load_session_wrapper env st store_ctx recordp address =
        env.callStore st.g_load_session_callback
          [CArg.ptr store_ctx, CArg.ptr recordp, CArg.addrOf address.raw]) ∧
    (st.g_store_session_callback ≠ 0 →
      spots_store_session_wrapper env st store_ctx address record =
        env.callStore st.g_store_session_callback
          [CArg.ptr store_ctx, CArg.addrOf address.raw, CArg.addrOf record.raw]) ∧
    (st.g_get_identity_key_pair_callback ≠ 0 →
      spots_get_identity_key_pair_wrapper env st store_ctx keyp =
        env.callStore st.g_get_identity_key_pair_callback
          [CArg.ptr store_ctx, CArg.ptr keyp]) ∧
    (st.g_get_local_registration_id_callback ≠ 0 →
      spots_get_local_registration_id_wrapper env st store_ctx idp =
        env.callStore st.g_get_local_registration_id_callback
          [CArg.ptr store_ctx, CArg.ptr idp]) ∧
    (st.g_save_identity_key_callback ≠ 0 →
      spots_save_identity_key_wrapper env st store_ctx address public_key =
        env.callStore st.g_save_identity_key_callback
          [CArg.ptr store_ctx, CArg.addrOf address.raw, CArg.addrOf public_key.raw]) ∧
    (st.g_get_identity_key_callback ≠ 0 →
      spots_get_identity_key_wrapper env st store_ctx public_keyp address =
        env.callStore st.g_get_identity_key_callback
          [CArg.ptr store_ctx, CArg.ptr public_keyp, CArg.addrOf address.raw]) ∧
    (st.g_is_trusted_identity_callback ≠ 0 →
      spots_is_trusted_identity_wrapper env st store_ctx address public_key direction =
        env.callStore st.g_is_trusted_identity_callback
          [CArg.ptr store_ctx, CArg.addrOf address.raw, CArg.addrOf public_key.raw,
            CArg.scalar direction]) := by
  refine ⟨?_, ?_, ?_, ?_, ?_, ?_, ?_⟩ <;> intro h <;>
    simp [spots_load_session_wrapper, spots_store_session_wrapper,
      spots_get_identity_key_pair_wrapper, spots_get_local_registration_id_wrapper,
      spots_save_identity_key_wrapper, spots_get_identity_key_wrapper,
      spots_is_trusted_identity_wrapper, h]

theorem claim_C4_witness :
    spots_load_session_wrapper envRecord
        (spots_register_load_session_callback 9 initState) 5 6 ⟨7⟩ = 0 := by
  rw [(claim_C4_argument_forwarding envRecord
        (spots_register_load_session_callback 9 initState) 5 6 0 0 0 ⟨7⟩ ⟨0⟩ ⟨0⟩ 0).1
      (by decide)]
  decide

/-- C5: by-name Dispatch registration with a name the dynamic symbol table
resolves makes subsequent Dispatch invocations reach the resolved symbol;
with a name that fails to resolve, registration leaves the state completely
unchanged (silent no-op), so a previously registered handler remains active
and Dispatch behaves exactly as before. -/
theorem claim_C5_by_name_registration (dlsym : String → Nat) (function_name : String)
    (st : BridgeState) (env : HandlerEnv) (args_address : Nat) :
    (dlsym function_name ≠ 0 →
      signal_dispatch_wrapper env
          (signal_register_dispatch_callback_by_name dlsym function_name st) args_address =
        env.callDispatch (dlsym function_name) args_address) ∧
    (dlsym function_name = 0 →
      signal_register_dispatch_callback_by_name dlsym function_name st = st ∧
        signal_dispatch_wrapper env
            (signal_register_dispatch_callback_by_name dlsym function_name st) args_address =
          signal_dispatch_wrapper env st args_address) := by
  constructor
  · intro hres
    simp [signal_register_dispatch_callback_by_name, signal_dispatch_wrapper, hres]
  · intro hres
    have hnoop : signal_register_dispatch_callback_by_name dlsym function_name st = st := by
      simp [signal_register_dispatch_callback_by_name, hres]
    exact ⟨hnoop, by rw [hnoop]⟩

theorem claim_C5_witness :
    signal_dispatch_wrapper envSeven
        (signal_register_dispatch_callback_by_name dlsymEx "my_dispatch" initState) 3 =
      envSeven.callDispatch 11 3 ∧
    signal_register_dispatch_callback_by_name dlsymEx "missing"
        (signal_register_dispatch_callback 21 initState) =
      signal_register_dispatch_callback 21 initState :=
  ⟨(claim_C5_by_name_registration dlsymEx "my_dispatch" initState envSeven 3).1 (by decide),
   ((claim_C5_by_name_registration dlsymEx "missing"
      (signal_register_dispatch_callback 21 initState) envSeven 3).2 (by decide)).1⟩

/-- C6: for the same underlying callable address, registering it for
Dispatch via the direct strategy and via the address strategy are
observationally equivalent: every subsequent Dispatch invocation returns
the same result for every args address. -/
theorem claim_C6_direct_address_equivalent (callback : Nat) (st : BridgeState)
    (env : HandlerEnv) (args_address : Nat) :
    signal_dispatch_wrapper env (signal_register_dispatch_callback callback st) args_address =
      signal_dispatch_wrapper env
        (signal_register_dispatch_callback_ptr callback st) args_address := rfl

/-- C7: registration has no failure mode: for every operation it stores any
supplied value, including the null handler, as the new slot content; after
registering the null handler, invoking that operation's wrapper returns the
not-registered sentinel `1` instead of calling through the null pointer. -/
theorem claim_C7_null_registration (op : Op) (callback : Nat) (st : BridgeState)
    (env : HandlerEnv) (args : OpArgs op) :
    slotOf op (registerOp op callback st) = callback ∧
      invokeOp op env (registerOp op 0 st) args = 1 :=
  ⟨slotOf_registerOp_same op callback st,
   invokeOp_of_slot_zero op env (registerOp op 0 st) args (slotOf_registerOp_same op 0 st)⟩

/-- C8: the not-registered sentinel is ambiguous: when a registered handler
returns `1`, the wrapper also returns `1`, indistinguishable at the
wrapper's interface from the no-handler-registered condition. -/
theorem claim_C8_sentinel_ambiguous (op : Op) (env : HandlerEnv) (st st' : BridgeState)
    (args : OpArgs op) (hreg : slotOf op st ≠ 0)
    (hone : callHandler op env (slotOf op st) args = 1)
    (habs : slotOf op st' = 0) :
    invokeOp op env st args = 1 ∧ invokeOp op env st args = invokeOp op env st' args := by
  have h1 : invokeOp op env st args = 1 := by
    rw [invokeOp_of_slot_ne_zero op env st args hreg]; exact hone
  exact ⟨h1, by rw [h1, invokeOp_of_slot_zero op env st' args habs]⟩

theorem claim_C8_witness :
    invokeOp Op.getLocalRegistrationId envOne
        (registerOp Op.getLocalRegistrationId 5 initState) (2, 3) = 1 ∧
      invokeOp Op.getLocalRegistrationId envOne
          (registerOp Op.getLocalRegistrationId 5 initState) (2, 3) =
        invokeOp Op.getLocalRegistrationId envOne initState (2, 3) :=
  claim_C8_sentinel_ambiguous Op.getLocalRegistrationId envOne
    (registerOp Op.getLocalRegistrationId 5 initState) initState (2, 3)
    (by decide) (by decide) rfl

/-- C9: registrations are isolated per operation: for distinct operations
`op` and `op'`, registering a handler for `op` leaves the registry slot of
`op'` unchanged and leaves the result of invoking the wrapper of `op'`
unchanged for every environment and argument. -/
theorem claim_C9_per_operation_isolation (op op' : Op) (callback : Nat)
    (st : BridgeState) (env : HandlerEnv) (args : OpArgs op') (hne : op ≠ op') :
    slotOf op' (registerOp op callback st) = slotOf op' st ∧
      invokeOp op' env (registerOp op callback st) args = invokeOp op' env st args := by
  have hs := slotOf_registerOp_ne op op' callback st hne
  exact ⟨hs, invokeOp_congr_slot op' env (registerOp op callback st) st args hs⟩

theorem claim_C9_witness :
    slotOf Op.dispatch (registerOp Op.loadSession 8 (registerOp Op.dispatch 4 initState)) =
        slotOf Op.dispatch (registerOp Op.dispatch 4 initState) ∧
      invokeOp Op.dispatch envSeven
          (registerOp Op.loadSession 8 (registerOp Op.dispatch 4 initState))
          (show OpArgs Op.dispatch from (6 : Nat)) =
        invokeOp Op.dispatch envSeven (registerOp Op.dispatch 4 initState)
          (show OpArgs Op.dispatch from (6 : Nat)) :=
  claim_C9_per_operation_isolation Op.loadSession Op.dispatch 8
    (registerOp Op.dispatch 4 initState) envSeven
    (show OpArgs Op.dispatch from (6 : Nat)) (by decide)

/-- C10: the auxiliary slot `g_dart_callback_ptr` never influences Dispatch
output: overwriting it with any value leaves the result of
`signal_dispatch_wrapper` unchanged for every environment and every args
address, since dispatch reads only `g_dart_callback`. -/
theorem claim_C10_aux_slot_irrelevant (env : HandlerEnv) (st : BridgeState)
    (p : Nat) (args_address : Nat) :
    signal_dispatch_wrapper env { st with g_dart_callback_ptr := p } args_address =
      signal_dispatch_wrapper env st args_address := rfl
